import Mathlib

/-!
Shallow embedding of the lease-coordinator, engine-registry and GCS-upload
code of the clusterfuzz excerpt.

Sources embedded:
  - `src/python/bot/tasks/commands.py` (`run_command`): not present in the
    source tree; modelled from the specification and pinned at every point
    exercised by `src/python/tests/core/bot/tasks/commands_test.py`.
  - `src/python/bot/fuzzers/engine.py` (`register`, `get`, `do_trial`).
  - `src/appengine/libs/gcs.py` (`prepare_upload`).
-/

namespace commands

/-- Persisted record shape of a `data_types.TaskStatus` entity, as pinned by
`commands_test.py`: fields `bot_name`, `status` (one of `"started"`,
`"finished"`, `"errored out"`) and `time` (a timestamp, modelled as `Nat`
seconds). -/
structure TaskStatus where
  bot_name : String
  status : String
  time : Nat
deriving DecidableEq, Repr

/-- The transactional record store, keyed by the composite task key.
Modelled as an association list with at most one entry per key. -/
abbrev Store := List (String × TaskStatus)

/-- Read the record stored under `key`, if any (`TaskStatus.get_by_id`). -/
def storeGet (store : Store) (key : String) : Option TaskStatus :=
  match store with
  | [] => none
  | (k, v) :: rest => if k = key then some v else storeGet rest key

/-- Write `v` under `key`, replacing any existing record for that key
(`task_status.put()`). -/
def storePut (store : Store) (key : String) (v : TaskStatus) : Store :=
  match store with
  | [] => [(key, v)]
  | (k, w) :: rest => if k = key then (k, v) :: rest else (k, w) :: storePut rest key v

/-- Environment of the worker: `BOT_NAME`, `TASK_LEASE_SECONDS` and the
current time `utcnow()` (constant for the duration of one call, as in the
tests, which mock `utcnow`). -/
structure Env where
  bot_name : String
  task_lease_seconds : Nat
  now : Nat
deriving DecidableEq, Repr

/-- Whether an existing record denotes an active (unexpired) lease: status
`started` and `now < acquired_at + lease_duration` (spec section 4.1 step 3). -/
def lease_active (env : Env) (ts : TaskStatus) : Bool :=
  decide (ts.status = "started" ∧ env.now < ts.time + env.task_lease_seconds)

/-- Modelled from the spec: `data_handler.update_task_status` of the missing
`commands.py`/`data_handler.py`. Transactionally reads the record for `key`;
a `started` write is refused (returning `false` with the store unchanged)
when an active lease exists; any other case writes
`{bot_name := BOT_NAME, status, time := now}` and returns `true`. -/
def update_task_status (env : Env) (store : Store) (key status : String) :
    Bool × Store :=
  match storeGet store key with
  | some ts =>
    if status = "started" ∧ lease_active env ts then (false, store)
    else (true, storePut store key ⟨env.bot_name, status, env.now⟩)
  | none => (true, storePut store key ⟨env.bot_name, status, env.now⟩)

/-- Modelled from the spec and the tests: whether a task kind is subject to
status tracking. `test_run_command_fuzz` pins that the `fuzz` kind creates
no `TaskStatus` entity, so the coordinator skips every status write for it. -/
def should_update_task_status (task_name : String) : Bool :=
  decide (task_name ≠ "fuzz")

/-- Outcome of invoking the external task handler: normal completion, a
recoverable `errors.InvalidTestcaseError`, or any other (unclassified)
exception. -/
inductive HandlerOutcome where
  | success
  | invalidTestcase
  | unclassified
deriving DecidableEq, Repr

/-- How `run_command` itself terminates: normal return, raising
`AlreadyRunningError`, or re-raising the handler's unclassified error. -/
inductive RunOutcome where
  | ok
  | alreadyRunning
  | reraised
deriving DecidableEq, Repr

/-- Observable result of one `run_command` call: how it terminated, the
final state of the store, and how many times the task handler ran. -/
structure RunResult where
  outcome : RunOutcome
  store : Store
  handler_calls : Nat
deriving DecidableEq, Repr

/-- Modelled from the spec: `run_command` of the missing
`bot/tasks/commands.py`. Computes the composite key
`"task argument job"`; for status-tracked kinds attempts the `started`
write (raising `AlreadyRunningError` when refused, before the handler runs),
then invokes the handler and finalizes with `finished` (normal completion or
`InvalidTestcaseError`, which is swallowed) or `errored out` (any other
exception, which is re-raised). The `fuzz` kind runs its handler with no
status write at all, as pinned by `test_run_command_fuzz`. -/
def run_command (env : Env) (store : Store)
    (task_name task_argument job_name : String) (handler : HandlerOutcome) :
    RunResult :=
  let key := task_name ++ " " ++ task_argument ++ " " ++ job_name
  if should_update_task_status task_name then
    match update_task_status env store key "started" with
    | (false, _) => ⟨RunOutcome.alreadyRunning, store, 0⟩
    | (true, store1) =>
      match handler with
      | HandlerOutcome.success =>
          ⟨RunOutcome.ok, (update_task_status env store1 key "finished").2, 1⟩
      | HandlerOutcome.invalidTestcase =>
          ⟨RunOutcome.ok, (update_task_status env store1 key "finished").2, 1⟩
      | HandlerOutcome.unclassified =>
          ⟨RunOutcome.reraised, (update_task_status env store1 key "errored out").2, 1⟩
  else
    match handler with
    | HandlerOutcome.success => ⟨RunOutcome.ok, store, 1⟩
    | HandlerOutcome.invalidTestcase => ⟨RunOutcome.ok, store, 1⟩
    | HandlerOutcome.unclassified => ⟨RunOutcome.reraised, store, 1⟩

end commands

namespace engine

/-- Python value as seen by `environment.get_value`: `None` for an unset
variable, or a boolean, integer or string setting. -/
inductive PyValue where
  | pyNone
  | pyBool (b : Bool)
  | pyInt (n : Int)
  | pyStr (s : String)
deriving DecidableEq, Repr

/-- Python truthiness of a `PyValue` (`if use_new_impl:`). -/
def pyTruthy : PyValue → Bool
  | PyValue.pyNone => false
  | PyValue.pyBool b => b
  | PyValue.pyInt n => decide (n ≠ 0)
  | PyValue.pyStr s => decide (s ≠ "")

/-- The module-level `_ENGINES` dict: engine name to engine class.  Engine
classes are modelled as opaque string tokens (a Python class object is
always truthy). -/
abbrev EngineRegistry := List (String × String)

/-- Dictionary lookup `_ENGINES.get(name)` / membership `name in _ENGINES`. -/
def registryLookup (reg : EngineRegistry) (name : String) : Option String :=
  match reg with
  | [] => none
  | (k, v) :: rest => if k = name then some v else registryLookup rest name

/-- `engine.register`: raises `ValueError` when the name is already present,
otherwise stores the class under the name. -/
def register (reg : EngineRegistry) (name engine_class : String) :
    Except String EngineRegistry :=
  match registryLookup reg name with
  | some _ => Except.error ("Engine " ++ name ++ " is already registered")
  | none => Except.ok ((name, engine_class) :: reg)

/-- An instantiated engine object: the class it was built from plus an
allocation identity, so that distinct instantiations are distinct objects. -/
structure EngineInstance where
  engine_class : String
  obj_id : Nat
deriving DecidableEq, Repr

/-- `engine.get`: look the name up; on a hit call the class, producing a
fresh object (modelled by consuming the allocation counter `next_obj_id`);
on a miss return `None`. -/
def get (reg : EngineRegistry) (name : String) (next_obj_id : Nat) :
    Option EngineInstance × Nat :=
  match registryLookup reg name with
  | some engine_class => (some ⟨engine_class, next_obj_id⟩, next_obj_id + 1)
  | none => (none, next_obj_id)

/-- `_TRIAL_PROBABILITY_FUZZ = 0.2` (exact as a rational). -/
def TRIAL_PROBABILITY_FUZZ : ℚ := 0.2

/-- `_TRIAL_PROBABILITY_OTHERS = 0.05` (exact as a rational). -/
def TRIAL_PROBABILITY_OTHERS : ℚ := 0.05

/-- The probability tier chosen by `do_trial` from
`environment.get_value('TASK_NAME')`. -/
def trial_probability (task_name : PyValue) : ℚ :=
  if task_name = PyValue.pyStr "fuzz" then TRIAL_PROBABILITY_FUZZ
  else TRIAL_PROBABILITY_OTHERS

/-- `engine.do_trial`, with the random draw
`random.SystemRandom().random()` modelled as a uniform rational `u` in
`[0,1)`: a truthy override wins; an override that is the boolean `False`
(`use_new_impl is False`) forces `false`; otherwise compare the draw with
the tier probability. -/
def do_trial (use_new_impl task_name : PyValue) (u : ℚ) : Bool :=
  if pyTruthy use_new_impl then true
  else if use_new_impl = PyValue.pyBool false then false
  else decide (u < trial_probability task_name)

end engine

namespace gcs

/-- `DEFAULT_URL_VALID_SECONDS = 30 * 60`. -/
def DEFAULT_URL_VALID_SECONDS : Nat := 30 * 60

/-- `MAX_UPLOAD_SIZE = 15 * 1024 * 1024 * 1024` (15 GB). -/
def MAX_UPLOAD_SIZE : Nat := 15 * 1024 * 1024 * 1024

/-- One entry of the policy `conditions` list built by `prepare_upload`:
`{'key': path}`, `{'bucket': bucket_name}`,
`['content-length-range', 0, MAX_UPLOAD_SIZE]` or
`['starts-with', field, value]`. -/
inductive PolicyCondition where
  | keyIs (k : String)
  | bucketIs (b : String)
  | contentLengthRange (lo hi : Nat)
  | startsWith (field value : String)
deriving DecidableEq, Repr

/-- The policy document serialized (json, then base64) into the `policy`
field: its expiration timestamp and its condition list.  The serialization
is injective, so the document itself is the model of the encoded policy. -/
structure PolicyDocument where
  expiration : Nat
  conditions : List PolicyCondition
deriving DecidableEq, Repr

/-- The `GcsUpload` namedtuple:
`['url', 'bucket', 'key', 'google_access_id', 'policy', 'signature']`. -/
structure GcsUpload where
  url : String
  bucket : String
  key : String
  google_access_id : String
  policy : PolicyDocument
  signature : String
deriving DecidableEq, Repr

/-- `STORAGE_URL % bucket`. -/
def STORAGE_URL (bucket : String) : String :=
  "https://storage.googleapis.com/" ++ bucket

/-- `gcs.prepare_upload`.  External collaborators are passed in explicitly:
`sign` for `sign_data` (the cloud signing API), `service_account_email`,
the `LOCAL_GCS_SERVER_HOST` setting, and `now` for
`datetime.datetime.utcnow()`. -/
def prepare_upload (sign : PolicyDocument → String)
    (service_account_email : String) (local_server : Option String)
    (now : Nat) (bucket_name path : String) (expiry : Nat) : GcsUpload :=
  let expiration_time := now + expiry
  let conditions : List PolicyCondition :=
    [PolicyCondition.keyIs path,
     PolicyCondition.bucketIs bucket_name,
     PolicyCondition.contentLengthRange 0 MAX_UPLOAD_SIZE,
     PolicyCondition.startsWith "$x-goog-meta-filename" ""]
  let policy : PolicyDocument := ⟨expiration_time, conditions⟩
  match local_server with
  | some server =>
      ⟨server, bucket_name, path, "service_account", policy, "SIGNATURE"⟩
  | none =>
      ⟨STORAGE_URL bucket_name, bucket_name, path, service_account_email,
       policy, sign policy⟩

end gcs

/-! Helper lemmas about the record store and the transactional update. -/

/-- Writing twice under the same key is the same as writing once with the
second value. -/
theorem storePut_storePut (s : commands.Store) (k : String) (v w : commands.TaskStatus) :
    commands.storePut (commands.storePut s k v) k w = commands.storePut s k w := by
  induction s with
  | nil => simp [commands.storePut]
  | cons hd tl ih =>
    obtain ⟨k1, v1⟩ := hd
    by_cases hk : k1 = k <;> simp [commands.storePut, hk, ih]

/-- Reading a key back after writing it returns the written record. -/
theorem storeGet_storePut (s : commands.Store) (k : String) (v : commands.TaskStatus) :
    commands.storeGet (commands.storePut s k v) k = some v := by
  induction s with
  | nil => simp [commands.storePut, commands.storeGet]
  | cons hd tl ih =>
    obtain ⟨k1, v1⟩ := hd
    by_cases hk : k1 = k <;> simp [commands.storePut, commands.storeGet, hk, ih]

/-- A `started` write against an existing `started` record with an
unexpired lease is refused and leaves the store unchanged. -/
theorem update_task_status_blocked (env : commands.Env) (store : commands.Store)
    (key : String) (ts : commands.TaskStatus)
    (hget : commands.storeGet store key = some ts)
    (hstat : ts.status = "started")
    (hlease : env.now < ts.time + env.task_lease_seconds) :
    commands.update_task_status env store key "started" = (false, store) := by
  simp [commands.update_task_status, hget, commands.lease_active, hstat, hlease]

/-- A finalizing write (any status other than `started`) always succeeds
and overwrites the record. -/
theorem update_task_status_writes (env : commands.Env) (store : commands.Store)
    (key status : String) (hstatus : status ≠ "started") :
    commands.update_task_status env store key status =
      (true, commands.storePut store key ⟨env.bot_name, status, env.now⟩) := by
  unfold commands.update_task_status
  cases h : commands.storeGet store key with
  | none => rfl
  | some ts => simp [hstatus]

/-- A `started` write against an existing record whose lease window has
elapsed succeeds and overwrites the record. -/
theorem update_task_status_not_active (env : commands.Env) (store : commands.Store)
    (key : String) (ts : commands.TaskStatus)
    (hget : commands.storeGet store key = some ts)
    (hexp : ts.time + env.task_lease_seconds ≤ env.now) :
    commands.update_task_status env store key "started" =
      (true, commands.storePut store key ⟨env.bot_name, "started", env.now⟩) := by
  simp [commands.update_task_status, hget, commands.lease_active, Nat.not_lt.mpr hexp]

/-- Whenever a `started` write reports success, the store it returns is the
one with the fresh `started` record written under the key. -/
theorem update_task_status_acquired (env : commands.Env) (store : commands.Store)
    (key : String)
    (hacq : (commands.update_task_status env store key "started").1 = true) :
    commands.update_task_status env store key "started" =
      (true, commands.storePut store key ⟨env.bot_name, "started", env.now⟩) := by
  unfold commands.update_task_status at hacq ⊢
  cases h : commands.storeGet store key with
  | none => rfl
  | some ts =>
    rw [h] at hacq
    cases h2 : commands.lease_active env ts with
    | true => simp [h2] at hacq
    | false => simp [h2]

/-! Claim C1. -/

/-- C1 (amended): for every key whose task kind is status-tracked (every
kind other than `fuzz`), if a record exists with status `started` and an
unexpired time (`now < acquired_at + lease_duration`), then `run_command`
for that key raises `AlreadyRunningError`, does not invoke the task
handler, and performs no write: the store is unchanged after the call. -/
theorem run_command_active_lease_blocks (env : commands.Env) (store : commands.Store)
    (task_name task_argument job_name : String) (handler : commands.HandlerOutcome)
    (ts : commands.TaskStatus)
    (hupd : commands.should_update_task_status task_name = true)
    (hget : commands.storeGet store (task_name ++ " " ++ task_argument ++ " " ++ job_name) = some ts)
    (hstat : ts.status = "started")
    (hlease : env.now < ts.time + env.task_lease_seconds) :
    commands.run_command env store task_name task_argument job_name handler =
      ⟨commands.RunOutcome.alreadyRunning, store, 0⟩ := by
  have hblock := update_task_status_blocked env store
    (task_name ++ " " ++ task_argument ++ " " ++ job_name) ts hget hstat hlease
  simp [commands.run_command, hupd, hblock]

/-- C1 counterexample: for the `fuzz` task kind the claim as stated fails.
A `started` record with an unexpired lease exists for the key
`"fuzz fuzzer job"` (time 100, lease 60, now 100), yet `run_command`
returns normally (no `AlreadyRunningError`) and invokes the handler once. -/
theorem run_command_fuzz_active_lease_cex :
    commands.storeGet [("fuzz fuzzer job", ⟨"another_bot", "started", 100⟩)]
        "fuzz fuzzer job" = some ⟨"another_bot", "started", 100⟩ ∧
    (100 : Nat) < 100 + 60 ∧
    commands.run_command ⟨"bot_name", 60, 100⟩
        [("fuzz fuzzer job", ⟨"another_bot", "started", 100⟩)]
        "fuzz" "fuzzer" "job" commands.HandlerOutcome.success =
      ⟨commands.RunOutcome.ok,
       [("fuzz fuzzer job", ⟨"another_bot", "started", 100⟩)], 1⟩ :=
  ⟨rfl, by decide, rfl⟩

/-- Witness for C1 at the concrete scenario of
`test_run_command_already_running`. -/
theorem run_command_active_lease_blocks_witness :
    commands.run_command ⟨"bot_name", 60, 100⟩
        [("progression 123 job", ⟨"another_bot", "started", 100⟩)]
        "progression" "123" "job" commands.HandlerOutcome.success =
      ⟨commands.RunOutcome.alreadyRunning,
       [("progression 123 job", ⟨"another_bot", "started", 100⟩)], 0⟩ :=
  run_command_active_lease_blocks ⟨"bot_name", 60, 100⟩
    [("progression 123 job", ⟨"another_bot", "started", 100⟩)]
    "progression" "123" "job" commands.HandlerOutcome.success
    ⟨"another_bot", "started", 100⟩ (by decide) rfl rfl (by decide)

/-! Claim C2. -/

/-- C2 (amended): for every key of a status-tracked task kind (every kind
other than `fuzz`) whose existing record has status `started` but a time at
least `lease_duration` seconds before now, a subsequent `run_command` whose
handler completes normally succeeds: the handler is invoked exactly once
and the record is overwritten, ending with status `finished`, holder equal
to the current worker and time equal to the completion time. -/
theorem run_command_expired_lease_overwrites (env : commands.Env) (store : commands.Store)
    (task_name task_argument job_name : String) (ts : commands.TaskStatus)
    (hupd : commands.should_update_task_status task_name = true)
    (hget : commands.storeGet store (task_name ++ " " ++ task_argument ++ " " ++ job_name) = some ts)
    (hstat : ts.status = "started")
    (hexp : ts.time + env.task_lease_seconds ≤ env.now) :
    commands.run_command env store task_name task_argument job_name
        commands.HandlerOutcome.success =
      ⟨commands.RunOutcome.ok,
       commands.storePut store (task_name ++ " " ++ task_argument ++ " " ++ job_name)
         ⟨env.bot_name, "finished", env.now⟩, 1⟩ := by
  have hacq := update_task_status_not_active env store
    (task_name ++ " " ++ task_argument ++ " " ++ job_name) ts hget hexp
  have hfin := update_task_status_writes env
    (commands.storePut store (task_name ++ " " ++ task_argument ++ " " ++ job_name)
      ⟨env.bot_name, "started", env.now⟩)
    (task_name ++ " " ++ task_argument ++ " " ++ job_name) "finished" (by decide)
  simp [commands.run_command, hupd, hacq, hfin, storePut_storePut]

/-- C2 counterexample: for the `fuzz` task kind the claim as stated fails.
An expired `started` record exists for `"fuzz fuzzer job"` (time 0, lease
60, now 100); `run_command` succeeds and runs the handler once, but the
record is not overwritten: it still carries the old holder and `started`. -/
theorem run_command_fuzz_expired_lease_cex :
    commands.storeGet [("fuzz fuzzer job", ⟨"another_bot", "started", 0⟩)]
        "fuzz fuzzer job" = some ⟨"another_bot", "started", 0⟩ ∧
    (0 : Nat) + 60 ≤ 100 ∧
    commands.run_command ⟨"bot_name", 60, 100⟩
        [("fuzz fuzzer job", ⟨"another_bot", "started", 0⟩)]
        "fuzz" "fuzzer" "job" commands.HandlerOutcome.success =
      ⟨commands.RunOutcome.ok,
       [("fuzz fuzzer job", ⟨"another_bot", "started", 0⟩)], 1⟩ :=
  ⟨rfl, by decide, rfl⟩

/-- Witness for C2 at the concrete scenario of
`test_run_command_already_running_expired`. -/
theorem run_command_expired_lease_overwrites_witness :
    commands.run_command ⟨"bot_name", 60, 100⟩
        [("progression 123 job", ⟨"another_bot", "started", 0⟩)]
        "progression" "123" "job" commands.HandlerOutcome.success =
      ⟨commands.RunOutcome.ok,
       [("progression 123 job", ⟨"bot_name", "finished", 100⟩)], 1⟩ :=
  run_command_expired_lease_overwrites ⟨"bot_name", 60, 100⟩
    [("progression 123 job", ⟨"another_bot", "started", 0⟩)]
    "progression" "123" "job" ⟨"another_bot", "started", 0⟩
    (by decide) rfl rfl (by decide)

/-! Claim C3. -/

/-- C3 (amended): for every status-tracked task kind (every kind other
than `fuzz`), when the task handler completes normally `run_command`
leaves exactly one record, stored under the composite key
`"task_kind task_argument job_name"`, with `bot_name` equal to the current
worker's `BOT_NAME`, status `finished` and time equal to the current time. -/
theorem run_command_success_single_record (env : commands.Env)
    (task_name task_argument job_name : String)
    (hupd : commands.should_update_task_status task_name = true) :
    commands.run_command env [] task_name task_argument job_name
        commands.HandlerOutcome.success =
      ⟨commands.RunOutcome.ok,
       [(task_name ++ " " ++ task_argument ++ " " ++ job_name,
         ⟨env.bot_name, "finished", env.now⟩)], 1⟩ := by
  have hacq : commands.update_task_status env []
      (task_name ++ " " ++ task_argument ++ " " ++ job_name) "started" =
      (true, [(task_name ++ " " ++ task_argument ++ " " ++ job_name,
        ⟨env.bot_name, "started", env.now⟩)]) := rfl
  have hfin := update_task_status_writes env
    [(task_name ++ " " ++ task_argument ++ " " ++ job_name,
      ⟨env.bot_name, "started", env.now⟩)]
    (task_name ++ " " ++ task_argument ++ " " ++ job_name) "finished" (by decide)
  simp [commands.run_command, hupd, hacq, hfin, commands.storePut]

/-- C3 counterexample: for the `fuzz` task kind a normally completing
handler leaves zero records, not one. -/
theorem run_command_fuzz_no_record_cex :
    commands.run_command ⟨"bot_name", 60, 100⟩ [] "fuzz" "fuzzer" "job"
        commands.HandlerOutcome.success =
      ⟨commands.RunOutcome.ok, [], 1⟩ ∧
    (commands.run_command ⟨"bot_name", 60, 100⟩ [] "fuzz" "fuzzer" "job"
        commands.HandlerOutcome.success).store.length = 0 :=
  ⟨rfl, rfl⟩

/-- Witness for C3 at the concrete scenario of
`test_run_command_progression`. -/
theorem run_command_success_single_record_witness :
    commands.run_command ⟨"bot_name", 60, 100⟩ [] "progression" "123" "job"
        commands.HandlerOutcome.success =
      ⟨commands.RunOutcome.ok,
       [("progression 123 job", ⟨"bot_name", "finished", 100⟩)], 1⟩ :=
  run_command_success_single_record ⟨"bot_name", 60, 100⟩ "progression" "123" "job" (by decide)

/-! Claim C4. -/

/-- C4 (amended): for every status-tracked task kind (every kind other
than `fuzz`), `run_command` acquires the lease record for the composite
key before invoking the handler, so after a call that returns normally
(without `AlreadyRunningError`) a record for the derived key exists with
the terminal status `finished`, held by the current worker. The `fuzz`
kind invokes its handler without any status record. -/
theorem run_command_ok_terminal_record (env : commands.Env) (store : commands.Store)
    (task_name task_argument job_name : String) (handler : commands.HandlerOutcome)
    (hupd : commands.should_update_task_status task_name = true)
    (hok : (commands.run_command env store task_name task_argument job_name handler).outcome =
      commands.RunOutcome.ok) :
    commands.storeGet
        (commands.run_command env store task_name task_argument job_name handler).store
        (task_name ++ " " ++ task_argument ++ " " ++ job_name) =
      some ⟨env.bot_name, "finished", env.now⟩ := by
  cases hu : commands.update_task_status env store
      (task_name ++ " " ++ task_argument ++ " " ++ job_name) "started" with
  | mk acquired store1 =>
    cases acquired with
    | false =>
      rw [commands.run_command.eq_def] at hok
      simp [hupd, hu] at hok
    | true =>
      have hs1 : store1 = commands.storePut store
          (task_name ++ " " ++ task_argument ++ " " ++ job_name)
          ⟨env.bot_name, "started", env.now⟩ := by
        have := update_task_status_acquired env store
          (task_name ++ " " ++ task_argument ++ " " ++ job_name) (by rw [hu])
        rw [hu] at this
        exact (Prod.mk.injEq _ _ _ _).mp this |>.2
      cases handler with
      | success =>
        have hfin := update_task_status_writes env store1
          (task_name ++ " " ++ task_argument ++ " " ++ job_name) "finished" (by decide)
        simp [commands.run_command, hupd, hu, hfin, storeGet_storePut]
      | invalidTestcase =>
        have hfin := update_task_status_writes env store1
          (task_name ++ " " ++ task_argument ++ " " ++ job_name) "finished" (by decide)
        simp [commands.run_command, hupd, hu, hfin, storeGet_storePut]
      | unclassified =>
        rw [commands.run_command.eq_def] at hok
        simp [hupd, hu] at hok

/-- C4 counterexample: for the `fuzz` task kind (explicitly included by the
claim), a successful `run_command` leaves no record at all for the derived
key, terminal or otherwise, even though the handler ran. -/
theorem run_command_fuzz_no_terminal_record_cex :
    (commands.run_command ⟨"bot_name", 60, 100⟩ [] "fuzz" "fuzzer" "job"
        commands.HandlerOutcome.success).outcome = commands.RunOutcome.ok ∧
    commands.storeGet
        (commands.run_command ⟨"bot_name", 60, 100⟩ [] "fuzz" "fuzzer" "job"
          commands.HandlerOutcome.success).store "fuzz fuzzer job" = none :=
  ⟨rfl, rfl⟩

/-- Witness for C4 at a concrete progression task. -/
theorem run_command_ok_terminal_record_witness :
    commands.storeGet
        (commands.run_command ⟨"bot_name", 60, 100⟩ [] "progression" "123" "job"
          commands.HandlerOutcome.success).store "progression 123 job" =
      some ⟨"bot_name", "finished", 100⟩ :=
  run_command_ok_terminal_record ⟨"bot_name", 60, 100⟩ [] "progression" "123" "job"
    commands.HandlerOutcome.success (by decide) rfl

/-! Claim C5. -/

/-- C5 (amended): for every status-tracked task kind (every kind other
than `fuzz`), when the lease is acquirable and the handler raises the
recoverable `InvalidTestcaseError`, `run_command` records status
`finished` — not `errored` — and returns normally without propagating the
error. -/
theorem run_command_invalid_testcase_finishes (env : commands.Env) (store : commands.Store)
    (task_name task_argument job_name : String)
    (hupd : commands.should_update_task_status task_name = true)
    (hacq : (commands.update_task_status env store
      (task_name ++ " " ++ task_argument ++ " " ++ job_name) "started").1 = true) :
    commands.run_command env store task_name task_argument job_name
        commands.HandlerOutcome.invalidTestcase =
      ⟨commands.RunOutcome.ok,
       commands.storePut store (task_name ++ " " ++ task_argument ++ " " ++ job_name)
         ⟨env.bot_name, "finished", env.now⟩, 1⟩ := by
  have hu := update_task_status_acquired env store
    (task_name ++ " " ++ task_argument ++ " " ++ job_name) hacq
  have hfin := update_task_status_writes env
    (commands.storePut store (task_name ++ " " ++ task_argument ++ " " ++ job_name)
      ⟨env.bot_name, "started", env.now⟩)
    (task_name ++ " " ++ task_argument ++ " " ++ job_name) "finished" (by decide)
  simp [commands.run_command, hupd, hu, hfin, storePut_storePut]

/-- C5 counterexample: for the `fuzz` task kind a recoverable error is
swallowed but nothing is recorded: no `finished` record exists after the
call. -/
theorem run_command_fuzz_invalid_testcase_cex :
    commands.run_command ⟨"bot_name", 60, 100⟩ [] "fuzz" "fuzzer" "job"
        commands.HandlerOutcome.invalidTestcase =
      ⟨commands.RunOutcome.ok, [], 1⟩ ∧
    commands.storeGet
        (commands.run_command ⟨"bot_name", 60, 100⟩ [] "fuzz" "fuzzer" "job"
          commands.HandlerOutcome.invalidTestcase).store "fuzz fuzzer job" = none :=
  ⟨rfl, rfl⟩

/-- Witness for C5 at the concrete scenario of
`test_run_command_invalid_testcase`. -/
theorem run_command_invalid_testcase_finishes_witness :
    commands.run_command ⟨"bot_name", 60, 100⟩ [] "progression" "123" "job"
        commands.HandlerOutcome.invalidTestcase =
      ⟨commands.RunOutcome.ok,
       [("progression 123 job", ⟨"bot_name", "finished", 100⟩)], 1⟩ :=
  run_command_invalid_testcase_finishes ⟨"bot_name", 60, 100⟩ [] "progression" "123" "job"
    (by decide) rfl

/-! Claim C6. -/

/-- C6 (amended): for every status-tracked task kind (every kind other
than `fuzz`), when the lease is acquirable and the handler raises any
error other than a recoverable domain error, `run_command` writes a record
with the `errored out` terminal status and `bot_name` equal to the current
worker, then re-raises that error to its caller. -/
theorem run_command_unclassified_errors_and_reraises (env : commands.Env)
    (store : commands.Store) (task_name task_argument job_name : String)
    (hupd : commands.should_update_task_status task_name = true)
    (hacq : (commands.update_task_status env store
      (task_name ++ " " ++ task_argument ++ " " ++ job_name) "started").1 = true) :
    commands.run_command env store task_name task_argument job_name
        commands.HandlerOutcome.unclassified =
      ⟨commands.RunOutcome.reraised,
       commands.storePut store (task_name ++ " " ++ task_argument ++ " " ++ job_name)
         ⟨env.bot_name, "errored out", env.now⟩, 1⟩ := by
  have hu := update_task_status_acquired env store
    (task_name ++ " " ++ task_argument ++ " " ++ job_name) hacq
  have herr := update_task_status_writes env
    (commands.storePut store (task_name ++ " " ++ task_argument ++ " " ++ job_name)
      ⟨env.bot_name, "started", env.now⟩)
    (task_name ++ " " ++ task_argument ++ " " ++ job_name) "errored out" (by decide)
  simp [commands.run_command, hupd, hu, herr, storePut_storePut]

/-- C6 counterexample: for the `fuzz` task kind an unclassified handler
error is re-raised but no `errored out` record is written. -/
theorem run_command_fuzz_unclassified_cex :
    commands.run_command ⟨"bot_name", 60, 100⟩ [] "fuzz" "fuzzer" "job"
        commands.HandlerOutcome.unclassified =
      ⟨commands.RunOutcome.reraised, [], 1⟩ ∧
    commands.storeGet
        (commands.run_command ⟨"bot_name", 60, 100⟩ [] "fuzz" "fuzzer" "job"
          commands.HandlerOutcome.unclassified).store "fuzz fuzzer job" = none :=
  ⟨rfl, rfl⟩

/-- Witness for C6 at the concrete scenario of
`test_run_command_exception`. -/
theorem run_command_unclassified_errors_and_reraises_witness :
    commands.run_command ⟨"bot_name", 60, 100⟩ [] "progression" "123" "job"
        commands.HandlerOutcome.unclassified =
      ⟨commands.RunOutcome.reraised,
       [("progression 123 job", ⟨"bot_name", "errored out", 100⟩)], 1⟩ :=
  run_command_unclassified_errors_and_reraises ⟨"bot_name", 60, 100⟩ []
    "progression" "123" "job" (by decide) rfl

/-! Claim C7. -/

/-- C7: `register(name, engine_class)` fails with a `ValueError` whenever
`name` is already present in the registry (in particular right after a
successful registration of that name); `get(name)` on an unregistered name
returns `None` rather than raising; and `get(name)` on a registered name
returns a fresh instance of the registered class on every call (two
successive calls yield distinct objects of the same class). -/
theorem engine_registry_contract (reg : engine.EngineRegistry)
    (name engine_class : String) (n : Nat) :
    ((engine.registryLookup reg name).isSome = true →
      engine.register reg name engine_class =
        Except.error ("Engine " ++ name ++ " is already registered")) ∧
    (engine.registryLookup reg name = none → engine.get reg name n = (none, n)) ∧
    (∀ c, engine.registryLookup reg name = some c →
      engine.get reg name n = (some ⟨c, n⟩, n + 1) ∧
      (engine.get reg name (n + 1)).1 = some ⟨c, n + 1⟩ ∧
      (⟨c, n⟩ : engine.EngineInstance) ≠ ⟨c, n + 1⟩) ∧
    (∀ reg2 engine_class2, engine.register reg name engine_class = Except.ok reg2 →
      engine.register reg2 name engine_class2 =
        Except.error ("Engine " ++ name ++ " is already registered")) := by
  refine ⟨?_, ?_, ?_, ?_⟩
  · intro hsome
    unfold engine.register
    cases h : engine.registryLookup reg name with
    | none => rw [h] at hsome; simp at hsome
    | some c => rfl
  · intro hnone
    unfold engine.get
    rw [hnone]
  · intro c hc
    unfold engine.get
    rw [hc]
    refine ⟨rfl, rfl, ?_⟩
    intro h
    have h2 := congrArg engine.EngineInstance.obj_id h
    simp at h2
  · intro reg2 engine_class2 hok
    unfold engine.register at hok ⊢
    cases h : engine.registryLookup reg name with
    | some c => rw [h] at hok; simp at hok
    | none =>
      rw [h] at hok
      have hreg2 : (name, engine_class) :: reg = reg2 := by
        simpa using hok
      subst hreg2
      simp [engine.registryLookup]

/-- Witness for C7: concrete lookups and a duplicate registration. -/
theorem engine_registry_contract_witness :
    engine.get [("libFuzzer", "LibFuzzerEngine")] "libFuzzer" 0 =
      (some ⟨"LibFuzzerEngine", 0⟩, 1) ∧
    engine.get [] "honggfuzz" 5 = (none, 5) ∧
    engine.register [("libFuzzer", "LibFuzzerEngine")] "libFuzzer" "OtherEngine" =
      Except.error "Engine libFuzzer is already registered" :=
  ⟨((engine_registry_contract [("libFuzzer", "LibFuzzerEngine")] "libFuzzer" "X" 0).2.2.1
      "LibFuzzerEngine" rfl).1,
   (engine_registry_contract [] "honggfuzz" "X" 5).2.1 rfl,
   (engine_registry_contract [("libFuzzer", "LibFuzzerEngine")] "libFuzzer" "OtherEngine" 0).1 rfl⟩

/-! Claim C8. -/

/-- C8: `do_trial` with the override set to the boolean true always returns
true; set to the boolean false it always returns false; with the override
unset (`None`), modelling the random source as a uniform `u` in `[0,1)`,
it returns true exactly when `u < 0.2` if `TASK_NAME` is `fuzz`, and
exactly when `u < 0.05` for any other task kind. -/
theorem do_trial_contract (task : engine.PyValue) (u : ℚ) :
    engine.do_trial (engine.PyValue.pyBool true) task u = true ∧
    engine.do_trial (engine.PyValue.pyBool false) task u = false ∧
    (engine.do_trial engine.PyValue.pyNone task u = true ↔
      (if task = engine.PyValue.pyStr "fuzz" then u < 0.2 else u < 0.05)) := by
  refine ⟨rfl, rfl, ?_⟩
  by_cases htask : task = engine.PyValue.pyStr "fuzz" <;>
    simp [engine.do_trial, engine.pyTruthy, engine.trial_probability, htask,
      engine.TRIAL_PROBABILITY_FUZZ, engine.TRIAL_PROBABILITY_OTHERS]

/-! Claim C9. -/

/-- C9: an override value that is falsy but not the boolean `False` (such
as the integer 0) does not short-circuit `do_trial` to false: the call
falls through to the probabilistic draw, comparing the uniform draw with
the tier probability. -/
theorem do_trial_falsy_non_false_override (v task : engine.PyValue) (u : ℚ)
    (hfalsy : engine.pyTruthy v = false) (hnot : v ≠ engine.PyValue.pyBool false) :
    engine.do_trial v task u = decide (u < engine.trial_probability task) := by
  simp [engine.do_trial, hfalsy, hnot]

/-- Witness for C9: the override integer 0 is falsy and distinct from the
boolean `False`, and with draw 0 under task kind `fuzz`, `do_trial`
returns true. -/
theorem do_trial_falsy_non_false_override_witness :
    engine.pyTruthy (engine.PyValue.pyInt 0) = false ∧
    engine.PyValue.pyInt 0 ≠ engine.PyValue.pyBool false ∧
    engine.do_trial (engine.PyValue.pyInt 0) (engine.PyValue.pyStr "fuzz") 0 = true := by
  refine ⟨rfl, by simp, ?_⟩
  rw [do_trial_falsy_non_false_override (engine.PyValue.pyInt 0)
    (engine.PyValue.pyStr "fuzz") 0 rfl (by simp)]
  simp only [decide_eq_true_eq]
  norm_num [engine.trial_probability, engine.TRIAL_PROBABILITY_FUZZ]

/-! Claim C10. -/

/-- C10: for every bucket name, path and expiry (and regardless of the
local-server setting), `prepare_upload` returns a `GcsUpload` whose
`bucket` field equals the bucket argument, whose `key` field equals the
path argument, and whose policy carries exactly the conditions restricting
the upload to that key and bucket with a content-length-range of 0 to
`15 * 1024 * 1024 * 1024` bytes (15 GB). -/
theorem prepare_upload_contract (sign : gcs.PolicyDocument → String)
    (service_account_email : String) (local_server : Option String)
    (now expiry : Nat) (bucket_name path : String) :
    (gcs.prepare_upload sign service_account_email local_server now
      bucket_name path expiry).bucket = bucket_name ∧
    (gcs.prepare_upload sign service_account_email local_server now
      bucket_name path expiry).key = path ∧
    (gcs.prepare_upload sign service_account_email local_server now
      bucket_name path expiry).policy.conditions =
      [gcs.PolicyCondition.keyIs path,
       gcs.PolicyCondition.bucketIs bucket_name,
       gcs.PolicyCondition.contentLengthRange 0 gcs.MAX_UPLOAD_SIZE,
       gcs.PolicyCondition.startsWith "$x-goog-meta-filename" ""] ∧
    gcs.MAX_UPLOAD_SIZE = 15 * 1024 * 1024 * 1024 := by
  cases local_server with
  | none => exact ⟨rfl, rfl, rfl, rfl⟩
  | some server => exact ⟨rfl, rfl, rfl, rfl⟩
